import Mathlib

/-!
Verification of the native-host integration layer of the Money Machine
desktop shell (src/money-machine/src-tauri/src/lib.rs): the keep-alive
lifecycle manager (`enable_keep_alive`, `disable_keep_alive`) and the
credential vault adapter (`store_api_key`, `get_api_key`, `delete_api_key`).

The Rust commands are shallowly embedded as pure state transformers.
The OS facilities they drive — the platform secret store reached through
`keyring::Entry`, the sleep-inhibition handle from `keepawake::KeepAwake`,
and the `Mutex` guarding the handle slot — live outside the repository, so
they are modelled from the spec: the secret store is a finite map from key
name to secret (for the fixed service name), a live inhibition handle is
counted in `osHandles`, and each OS call takes an explicit fault parameter
(`none` = the OS call succeeds as far as the environment is concerned,
`some msg` = the OS reports failure `msg`).  The command bodies themselves
— branch structure, early returns, message strings and `map_err` wrappers —
are translated line by line from lib.rs.
-/

namespace MoneyMachine

/-- A sleep-inhibition handle as configured by the builder calls in
`enable_keep_alive`: display-blocking, idle-blocking and sleep-blocking
flags. -/
structure KeepAwake where
  display : Bool
  idle : Bool
  sleep : Bool
deriving DecidableEq, Repr

/-- Builder setter `.display(b)` of the keepawake crate. -/
def KeepAwake.setDisplay (k : KeepAwake) (b : Bool) : KeepAwake :=
  ⟨b, k.idle, k.sleep⟩

/-- Builder setter `.idle(b)` of the keepawake crate. -/
def KeepAwake.setIdle (k : KeepAwake) (b : Bool) : KeepAwake :=
  ⟨k.display, b, k.sleep⟩

/-- Builder setter `.sleep(b)` of the keepawake crate. -/
def KeepAwake.setSleep (k : KeepAwake) (b : Bool) : KeepAwake :=
  ⟨k.display, k.idle, b⟩

/-- Modelled from the spec: `KeepAwake::new()` asks the OS for a fresh
sleep-inhibition handle; `fault` is the OS failure, if any.  The initial
flag values are immaterial: `enable_keep_alive` overwrites all three. -/
def kaNew (fault : Option String) : Except String KeepAwake :=
  match fault with
  | some e => Except.error e
  | none => Except.ok ⟨false, false, false⟩

/-- The credential vault contents: the OS secret store restricted to the
fixed service name, as an association list from key name to secret. -/
abbrev Vault : Type := List (String × String)

/-- Look a key name up in the vault. -/
def vaultLookup : Vault → String → Option String
  | [], _ => none
  | (k, v) :: rest, key => if k = key then some v else vaultLookup rest key

/-- Remove every binding of a key name from the vault. -/
def vaultRemove (st : Vault) (key : String) : Vault :=
  match st with
  | [] => []
  | (k, v) :: rest =>
      if k = key then vaultRemove rest key else (k, v) :: vaultRemove rest key

/-- Bind a key name to a secret, overwriting any prior binding. -/
def vaultInsert (st : Vault) (key v : String) : Vault :=
  (key, v) :: vaultRemove st key

/-- A handle to one entry of the OS secret store, as produced by
`keyring::Entry::new(service, key_name)`. -/
structure Entry where
  service : String
  key : String
deriving DecidableEq, Repr

/-- Modelled from the spec: `Entry::new` opens a handle to the store entry
for `(service, key_name)`; it fails when the store cannot be opened, which
`fault` injects. -/
def entryNew (fault : Option String) (service key_name : String) :
    Except String Entry :=
  match fault with
  | some e => Except.error e
  | none => Except.ok ⟨service, key_name⟩

/-- The OS text reported when no secret exists for the requested entry. -/
def noEntryMsg : String := "No matching entry found in secure storage"

/-- Modelled from the spec: `set_password` writes the secret for the entry,
overwriting any prior value; `fault` injects an OS-level write rejection. -/
def setPassword (fault : Option String) (st : Vault) (e : Entry)
    (v : String) : Except String Vault :=
  match fault with
  | some m => Except.error m
  | none => Except.ok (vaultInsert st e.key v)

/-- Modelled from the spec: `get_password` reads the stored secret; it
fails when no secret exists for the entry (or on the injected OS fault). -/
def getPassword (fault : Option String) (st : Vault) (e : Entry) :
    Except String String :=
  match fault with
  | some m => Except.error m
  | none =>
      match vaultLookup st e.key with
      | some v => Except.ok v
      | none => Except.error noEntryMsg

/-- Modelled from the spec: `delete_credential` removes the stored secret;
it fails when the entry does not exist (or on the injected OS fault). -/
def deleteCredential (fault : Option String) (st : Vault) (e : Entry) :
    Except String Vault :=
  match fault with
  | some m => Except.error m
  | none =>
      match vaultLookup st e.key with
      | some _ => Except.ok (vaultRemove st e.key)
      | none => Except.error noEntryMsg

/-- The environment's behavior for the OS calls of one command invocation:
`lockFail` poisons the `KEEP_AWAKE_HANDLE` lock acquisition, `kaNewFail`
makes `KeepAwake::new` fail, `entryNewFail` makes `Entry::new` fail, and
`storeOpFail` makes the entry operation (set/get/delete) fail. -/
structure Fault where
  lockFail : Option String
  kaNewFail : Option String
  entryNewFail : Option String
  storeOpFail : Option String
deriving DecidableEq, Repr

/-- The fault-free environment: every OS call behaves nominally. -/
def noFault : Fault := ⟨none, none, none, none⟩

/-- The whole observable state: the contents of the `KEEP_AWAKE_HANDLE`
slot, the number of live OS sleep-inhibition handles the process holds
(modelled from the spec), and the vault contents. -/
structure AppState where
  slot : Option KeepAwake
  osHandles : Nat
  vault : Vault
deriving DecidableEq, Repr

/-- The state of a freshly started process: Inactive, no OS handle, over a
given vault (the vault outlives the process). -/
def initState (st : Vault) : AppState := ⟨none, 0, st⟩

def SERVICE_NAME : String := "money-machine"

/-- Embedding of `enable_keep_alive` (lib.rs lines 105-122). -/
def enable_keep_alive (f : Fault) (s : AppState) :
    Except String String × AppState :=
  match f.lockFail with
  | some m => (Except.error m, s)
  | none =>
      match s.slot with
      | some _ => (Except.ok "Keep-Alive already active", s)
      | none =>
          match kaNew f.kaNewFail with
          | Except.error e =>
              (Except.error ("Failed to enable Keep-Alive: " ++ e), s)
          | Except.ok a =>
              let awake := ((a.setDisplay false).setIdle true).setSleep true
              (Except.ok "Keep-Alive enabled",
                ⟨some awake, s.osHandles + 1, s.vault⟩)

/-- Embedding of `disable_keep_alive` (lib.rs lines 124-135). -/
def disable_keep_alive (f : Fault) (s : AppState) :
    Except String String × AppState :=
  match f.lockFail with
  | some m => (Except.error m, s)
  | none =>
      match s.slot with
      | none => (Except.ok "Keep-Alive not active", s)
      | some _ =>
          (Except.ok "Keep-Alive disabled", ⟨none, s.osHandles - 1, s.vault⟩)

/-- Embedding of `store_api_key` (lib.rs lines 145-155). -/
def store_api_key (f : Fault) (s : AppState) (key_name key_value : String) :
    Except String String × AppState :=
  match entryNew f.entryNewFail SERVICE_NAME key_name with
  | Except.error e => (Except.error ("Keyring error: " ++ e), s)
  | Except.ok entry =>
      match setPassword f.storeOpFail s.vault entry key_value with
      | Except.error e => (Except.error ("Failed to store key: " ++ e), s)
      | Except.ok vault2 =>
          (Except.ok ("Key '" ++ key_name ++ "' stored securely"),
            ⟨s.slot, s.osHandles, vault2⟩)

/-- Embedding of `get_api_key` (lib.rs lines 157-164). -/
def get_api_key (f : Fault) (s : AppState) (key_name : String) :
    Except String String × AppState :=
  match entryNew f.entryNewFail SERVICE_NAME key_name with
  | Except.error e => (Except.error ("Keyring error: " ++ e), s)
  | Except.ok entry =>
      match getPassword f.storeOpFail s.vault entry with
      | Except.error e => (Except.error ("Failed to retrieve key: " ++ e), s)
      | Except.ok v => (Except.ok v, s)

/-- Embedding of `delete_api_key` (lib.rs lines 166-176). -/
def delete_api_key (f : Fault) (s : AppState) (key_name : String) :
    Except String String × AppState :=
  match entryNew f.entryNewFail SERVICE_NAME key_name with
  | Except.error e => (Except.error ("Keyring error: " ++ e), s)
  | Except.ok entry =>
      match deleteCredential f.storeOpFail s.vault entry with
      | Except.error e => (Except.error ("Failed to delete key: " ++ e), s)
      | Except.ok vault2 =>
          (Except.ok ("Key '" ++ key_name ++ "' deleted"),
            ⟨s.slot, s.osHandles, vault2⟩)

/-- One invocation of the command surface. -/
inductive Cmd where
  | enable : Cmd
  | disable : Cmd
  | storeKey : String → String → Cmd
  | getKey : String → Cmd
  | deleteKey : String → Cmd
deriving DecidableEq, Repr

/-- Dispatch one command against the state, under a given environment. -/
def step (f : Fault) (s : AppState) : Cmd → Except String String × AppState
  | Cmd.enable => enable_keep_alive f s
  | Cmd.disable => disable_keep_alive f s
  | Cmd.storeKey k v => store_api_key f s k v
  | Cmd.getKey k => get_api_key f s k
  | Cmd.deleteKey k => delete_api_key f s k

/-- Run a sequence of command invocations, each under its own environment,
and return the final state. -/
def runTrace (s : AppState) : List (Fault × Cmd) → AppState
  | [] => s
  | (f, c) :: rest => runTrace (step f s c).2 rest

/-- The keep-alive invariant: the count of live OS inhibition handles
matches the slot — one when Active, zero when Inactive. -/
def kaInv (s : AppState) : Prop :=
  s.osHandles = if s.slot.isSome then 1 else 0

instance (s : AppState) : Decidable (kaInv s) :=
  inferInstanceAs (Decidable (_ = _))

/-! Helper lemmas about the vault map. -/

lemma vaultLookup_remove_other (st : Vault) (k key : String) (h : key ≠ k) :
    vaultLookup (vaultRemove st k) key = vaultLookup st key := by
  induction st with
  | nil => rfl
  | cons p rest ih =>
      obtain ⟨a, v⟩ := p
      by_cases hak : a = k
      · subst hak
        simp [vaultRemove, vaultLookup, Ne.symm h, ih]
      · by_cases hakey : a = key
        · subst hakey
          simp [vaultRemove, vaultLookup, hak]
        · simp [vaultRemove, vaultLookup, hak, hakey, ih]

lemma vaultLookup_remove_self (st : Vault) (k : String) :
    vaultLookup (vaultRemove st k) k = none := by
  induction st with
  | nil => rfl
  | cons p rest ih =>
      obtain ⟨a, v⟩ := p
      by_cases hak : a = k
      · simp [vaultRemove, hak, ih]
      · simp [vaultRemove, vaultLookup, hak, ih]

lemma vaultLookup_insert_self (st : Vault) (k v : String) :
    vaultLookup (vaultInsert st k v) k = some v := by
  simp [vaultInsert, vaultLookup]

lemma vaultLookup_insert_other (st : Vault) (k v key : String) (h : key ≠ k) :
    vaultLookup (vaultInsert st k v) key = vaultLookup st key := by
  simp [vaultInsert, vaultLookup, Ne.symm h, vaultLookup_remove_other st k key h]

/-! Helper lemmas about the keep-alive manager. -/

lemma enable_active (f : Fault) (s : AppState) (a : KeepAwake)
    (hf : f.lockFail = none) (ha : s.slot = some a) :
    enable_keep_alive f s = (Except.ok "Keep-Alive already active", s) := by
  simp [enable_keep_alive, hf, ha]

lemma enable_ok_slot (f : Fault) (s : AppState) (m : String)
    (h : (enable_keep_alive f s).1 = Except.ok m) :
    ∃ a, ((enable_keep_alive f s).2).slot = some a := by
  unfold enable_keep_alive at *
  cases hl : f.lockFail with
  | some e => simp [hl] at h
  | none =>
      cases hs : s.slot with
      | some a => exact ⟨a, by simp [hl, hs]⟩
      | none =>
          cases hk : f.kaNewFail with
          | some e => simp [hl, hs, hk, kaNew] at h
          | none =>
              exact ⟨⟨false, true, true⟩, by
                simp [hl, hs, hk, kaNew, KeepAwake.setDisplay,
                  KeepAwake.setIdle, KeepAwake.setSleep]⟩

lemma disable_slot_none (g : Fault) (s : AppState) (hg : g.lockFail = none) :
    ((disable_keep_alive g s).2).slot = none := by
  cases hs : s.slot <;> simp [disable_keep_alive, hg, hs]

lemma kaInv_step (f : Fault) (s : AppState) (c : Cmd) (h : kaInv s) :
    kaInv (step f s c).2 := by
  unfold kaInv at *
  cases c with
  | enable =>
      cases hl : f.lockFail with
      | some e => simpa [step, enable_keep_alive, hl] using h
      | none =>
          cases hs : s.slot with
          | some a => simpa [step, enable_keep_alive, hl, hs] using h
          | none =>
              cases hk : f.kaNewFail with
              | some e =>
                  simpa [step, enable_keep_alive, hl, hs, hk, kaNew] using h
              | none =>
                  rw [hs] at h
                  simp [step, enable_keep_alive, hl, hs, hk, kaNew]
                  simpa using h
  | disable =>
      cases hl : f.lockFail with
      | some e => simpa [step, disable_keep_alive, hl] using h
      | none =>
          cases hs : s.slot with
          | none => simpa [step, disable_keep_alive, hl, hs] using h
          | some a =>
              rw [hs] at h
              simp [step, disable_keep_alive, hl, hs]
              simp at h
              omega
  | storeKey k v =>
      cases he : f.entryNewFail with
      | some e => simpa [step, store_api_key, entryNew, he] using h
      | none =>
          cases ho : f.storeOpFail with
          | some e =>
              simpa [step, store_api_key, entryNew, setPassword, he, ho] using h
          | none =>
              simpa [step, store_api_key, entryNew, setPassword, he, ho] using h
  | getKey k =>
      cases he : f.entryNewFail with
      | some e => simpa [step, get_api_key, entryNew, he] using h
      | none =>
          unfold step get_api_key
          simp only [entryNew, he]
          cases hg : getPassword f.storeOpFail s.vault ⟨SERVICE_NAME, k⟩ <;>
            simpa using h
  | deleteKey k =>
      cases he : f.entryNewFail with
      | some e => simpa [step, delete_api_key, entryNew, he] using h
      | none =>
          unfold step delete_api_key
          simp only [entryNew, he]
          cases hd : deleteCredential f.storeOpFail s.vault ⟨SERVICE_NAME, k⟩ <;>
            simpa using h

lemma kaInv_le_one (s : AppState) (h : kaInv s) : s.osHandles ≤ 1 := by
  unfold kaInv at h
  cases hs : s.slot <;> rw [hs] at h <;> simp at h <;> omega

/-- C1: Credential round trip — in a fault-free environment, store(k, v)
followed by get(k) returns exactly v; a second store(k, v2) overwrites, so
get(k) then returns v2; and delete(k) followed by get(k) fails with an
error (the wrapped not-found report of the OS store). -/
theorem credential_round_trip (s : AppState) (k v v2 : String) :
    (get_api_key noFault (store_api_key noFault s k v).2 k).1 = Except.ok v
    ∧ (get_api_key noFault
        (store_api_key noFault (store_api_key noFault s k v).2 k v2).2 k).1 =
        Except.ok v2
    ∧ (get_api_key noFault
        (delete_api_key noFault (store_api_key noFault s k v).2 k).2 k).1 =
        Except.error ("Failed to retrieve key: " ++ noEntryMsg) := by
  refine ⟨?_, ?_, ?_⟩ <;>
    simp [get_api_key, store_api_key, delete_api_key, noFault, entryNew,
      setPassword, getPassword, deleteCredential, vaultLookup_insert_self,
      vaultLookup_remove_self]

/-- C2: at every point of every command sequence the process holds zero or
one OS keep-alive handle, never two: the handle-count invariant is
preserved by every step (enable and disable included, on success and on
error paths alike), so along any trace from a state satisfying it the
count stays at most one. -/
theorem keep_alive_single_handle (s : AppState) (h : kaInv s)
    (tr : List (Fault × Cmd)) :
    kaInv (runTrace s tr) ∧ (runTrace s tr).osHandles ≤ 1 := by
  have main : ∀ (tr : List (Fault × Cmd)) (s : AppState),
      kaInv s → kaInv (runTrace s tr) := by
    intro tr
    induction tr with
    | nil => intro s hs; exact hs
    | cons p rest ih =>
        intro s hs
        obtain ⟨f, c⟩ := p
        exact ih _ (kaInv_step f s c hs)
  exact ⟨main tr s h, kaInv_le_one _ (main tr s h)⟩

/-- Witness for C2 at the fresh process state and a concrete
enable-enable-disable trace. -/
theorem keep_alive_single_handle_witness :
    kaInv (initState []) ∧
      (kaInv (runTrace (initState [])
          [(noFault, Cmd.enable), (noFault, Cmd.enable), (noFault, Cmd.disable)])
        ∧ (runTrace (initState [])
          [(noFault, Cmd.enable), (noFault, Cmd.enable),
            (noFault, Cmd.disable)]).osHandles ≤ 1) :=
  ⟨by decide, keep_alive_single_handle (initState []) (by decide)
    [(noFault, Cmd.enable), (noFault, Cmd.enable), (noFault, Cmd.disable)]⟩

/-- C3: idempotence of enable — when the manager is Active, enable returns
success with the "already active" message and leaves the state (hence the
handle) untouched; consequently after any successful enable a second
enable succeeds with that message and creates no second handle. -/
theorem enable_idempotent (f g : Fault) (s : AppState)
    (hf : f.lockFail = none) (hg : g.lockFail = none) :
    (∀ a, s.slot = some a →
        enable_keep_alive f s = (Except.ok "Keep-Alive already active", s))
    ∧ (∀ m, (enable_keep_alive f s).1 = Except.ok m →
        enable_keep_alive g (enable_keep_alive f s).2 =
          (Except.ok "Keep-Alive already active", (enable_keep_alive f s).2)) := by
  constructor
  · intro a ha
    exact enable_active f s a hf ha
  · intro m hm
    obtain ⟨a, ha⟩ := enable_ok_slot f s m hm
    exact enable_active g _ a hg ha

/-- Witness for C3 at a concrete Active state. -/
theorem enable_idempotent_witness :
    noFault.lockFail = none ∧
      enable_keep_alive noFault ⟨some ⟨false, true, true⟩, 1, []⟩ =
        (Except.ok "Keep-Alive already active",
          ⟨some ⟨false, true, true⟩, 1, []⟩) :=
  ⟨rfl, (enable_idempotent noFault noFault ⟨some ⟨false, true, true⟩, 1, []⟩
      rfl rfl).1 ⟨false, true, true⟩ rfl⟩

/-- C4: idempotence of disable — when the manager is Inactive, disable
returns success with the "not active" message and changes nothing; and
whenever the lock is obtained, disable returns success in both the Active
and the Inactive case. -/
theorem disable_idempotent (f : Fault) (s : AppState) (hf : f.lockFail = none) :
    (s.slot = none →
        disable_keep_alive f s = (Except.ok "Keep-Alive not active", s))
    ∧ ∃ m, (disable_keep_alive f s).1 = Except.ok m := by
  constructor
  · intro hs
    simp [disable_keep_alive, hf, hs]
  · cases hs : s.slot with
    | none => exact ⟨"Keep-Alive not active", by simp [disable_keep_alive, hf, hs]⟩
    | some a => exact ⟨"Keep-Alive disabled", by simp [disable_keep_alive, hf, hs]⟩

/-- Witness for C4 at the fresh (Inactive) state. -/
theorem disable_idempotent_witness :
    noFault.lockFail = none ∧
      disable_keep_alive noFault (initState []) =
        (Except.ok "Keep-Alive not active", initState []) :=
  ⟨rfl, (disable_idempotent noFault (initState []) rfl).1 rfl⟩

/-- C5: enable/disable round trip — from any state, after a successful
enable a disable leaves the manager Inactive (the slot is empty), and a
subsequent disable again reports the "not active" message. -/
theorem enable_disable_round_trip (f g h : Fault) (s : AppState) (m : String)
    (_hok : (enable_keep_alive f s).1 = Except.ok m)
    (hg : g.lockFail = none) (hh : h.lockFail = none) :
    ((disable_keep_alive g (enable_keep_alive f s).2).2).slot = none
    ∧ disable_keep_alive h (disable_keep_alive g (enable_keep_alive f s).2).2 =
        (Except.ok "Keep-Alive not active",
          (disable_keep_alive g (enable_keep_alive f s).2).2) := by
  have h1 := disable_slot_none g (enable_keep_alive f s).2 hg
  refine ⟨h1, ?_⟩
  generalize (disable_keep_alive g (enable_keep_alive f s).2).2 = t at h1 ⊢
  simp [disable_keep_alive, hh, h1]

/-- Witness for C5 from the fresh state with a fault-free environment. -/
theorem enable_disable_round_trip_witness :
    (enable_keep_alive noFault (initState [])).1 = Except.ok "Keep-Alive enabled"
    ∧ (((disable_keep_alive noFault
          (enable_keep_alive noFault (initState [])).2).2).slot = none
      ∧ disable_keep_alive noFault
          (disable_keep_alive noFault (enable_keep_alive noFault (initState [])).2).2 =
        (Except.ok "Keep-Alive not active",
          (disable_keep_alive noFault
            (enable_keep_alive noFault (initState [])).2).2)) :=
  ⟨rfl, enable_disable_round_trip noFault noFault noFault (initState [])
      "Keep-Alive enabled" rfl rfl rfl⟩

/-- C6: keep-alive error paths — for both enable and disable a failed lock
acquisition yields a string error carrying the lock failure text; and when
enable runs in the Inactive state and the OS refuses to create the
inhibition handle, it returns an error string carrying the OS error
description and the state is unchanged (still Inactive). -/
theorem keep_alive_error_paths (f : Fault) (s : AppState) :
    (∀ m, f.lockFail = some m →
        (enable_keep_alive f s).1 = Except.error m
        ∧ (disable_keep_alive f s).1 = Except.error m)
    ∧ (∀ e, f.lockFail = none → s.slot = none → f.kaNewFail = some e →
        enable_keep_alive f s =
          (Except.error ("Failed to enable Keep-Alive: " ++ e), s)) := by
  constructor
  · intro m hm
    exact ⟨by simp [enable_keep_alive, hm], by simp [disable_keep_alive, hm]⟩
  · intro e hl hs hk
    simp [enable_keep_alive, hl, hs, hk, kaNew]

/-- Witness for C6: a concrete OS refusal during enable from the fresh
state. -/
theorem keep_alive_error_paths_witness :
    (⟨none, some "os refused", none, none⟩ : Fault).lockFail = none
    ∧ (initState []).slot = none
    ∧ (⟨none, some "os refused", none, none⟩ : Fault).kaNewFail = some "os refused"
    ∧ enable_keep_alive ⟨none, some "os refused", none, none⟩ (initState []) =
        (Except.error ("Failed to enable Keep-Alive: " ++ "os refused"),
          initState []) :=
  ⟨rfl, rfl, rfl,
    (keep_alive_error_paths ⟨none, some "os refused", none, none⟩
        (initState [])).2 "os refused" rfl rfl rfl⟩

/-- C7: delete-missing fails — with the OS store reachable, deleting a key
with no stored secret returns an error (the wrapped not-found report),
never a silent success, and leaves the state unchanged. -/
theorem delete_missing_fails (f : Fault) (s : AppState) (k : String)
    (hfe : f.entryNewFail = none) (hfo : f.storeOpFail = none)
    (hk : vaultLookup s.vault k = none) :
    delete_api_key f s k =
      (Except.error ("Failed to delete key: " ++ noEntryMsg), s) := by
  simp [delete_api_key, entryNew, deleteCredential, hfe, hfo, hk]

/-- Witness for C7 at the fresh empty vault. -/
theorem delete_missing_fails_witness :
    noFault.entryNewFail = none ∧ noFault.storeOpFail = none
    ∧ vaultLookup (initState []).vault "nonexistent" = none
    ∧ delete_api_key noFault (initState []) "nonexistent" =
        (Except.error ("Failed to delete key: " ++ noEntryMsg), initState []) :=
  ⟨rfl, rfl, rfl,
    delete_missing_fails noFault (initState []) "nonexistent" rfl rfl rfl⟩

/-- C8: vault error propagation — every failing store/get/delete call
returns a string error built by appending the underlying OS store error
text verbatim to a fixed wrapper prefix: entry-open failures come back as
"Keyring error: e", operation failures as "Failed to store/retrieve/delete
key: e", and a get on a missing key forwards the store's not-found text. -/
theorem vault_error_propagation (f : Fault) (s : AppState) (k v : String) :
    (∀ e, f.entryNewFail = some e →
        (store_api_key f s k v).1 = Except.error ("Keyring error: " ++ e)
        ∧ (get_api_key f s k).1 = Except.error ("Keyring error: " ++ e)
        ∧ (delete_api_key f s k).1 = Except.error ("Keyring error: " ++ e))
    ∧ (∀ e, f.entryNewFail = none → f.storeOpFail = some e →
        (store_api_key f s k v).1 = Except.error ("Failed to store key: " ++ e)
        ∧ (get_api_key f s k).1 = Except.error ("Failed to retrieve key: " ++ e)
        ∧ (delete_api_key f s k).1 = Except.error ("Failed to delete key: " ++ e))
    ∧ (f.entryNewFail = none → f.storeOpFail = none →
        vaultLookup s.vault k = none →
        (get_api_key f s k).1 =
          Except.error ("Failed to retrieve key: " ++ noEntryMsg)) := by
  refine ⟨?_, ?_, ?_⟩
  · intro e he
    refine ⟨?_, ?_, ?_⟩ <;>
      simp [store_api_key, get_api_key, delete_api_key, entryNew, he]
  · intro e he ho
    refine ⟨?_, ?_, ?_⟩ <;>
      simp [store_api_key, get_api_key, delete_api_key, entryNew,
        setPassword, getPassword, deleteCredential, he, ho]
  · intro he ho hk
    simp [get_api_key, entryNew, getPassword, he, ho, hk]

/-- Witness for C8: a concrete OS write/read rejection surfaced through
get. -/
theorem vault_error_propagation_witness :
    (⟨none, none, none, some "access denied"⟩ : Fault).entryNewFail = none
    ∧ (⟨none, none, none, some "access denied"⟩ : Fault).storeOpFail =
        some "access denied"
    ∧ (get_api_key ⟨none, none, none, some "access denied"⟩ (initState []) "k").1 =
        Except.error ("Failed to retrieve key: " ++ "access denied") :=
  ⟨rfl, rfl,
    ((vault_error_propagation ⟨none, none, none, some "access denied"⟩
        (initState []) "k" "v").2.1 "access denied" rfl rfl).2.1⟩

/-- C9: independent keys — storing under key a leaves the value stored
under any other key b unchanged; and after store(a, v1) then store(b, v2)
with a and b distinct, get(a) returns v1 and get(b) returns v2
simultaneously. -/
theorem independent_keys (f : Fault) (s : AppState) (a b v1 v2 : String)
    (hab : a ≠ b) (hfe : f.entryNewFail = none) (hfo : f.storeOpFail = none) :
    vaultLookup ((store_api_key f s a v1).2).vault b = vaultLookup s.vault b
    ∧ (get_api_key f
        (store_api_key f (store_api_key f s a v1).2 b v2).2 a).1 = Except.ok v1
    ∧ (get_api_key f
        (store_api_key f (store_api_key f s a v1).2 b v2).2 b).1 = Except.ok v2 := by
  refine ⟨?_, ?_, ?_⟩
  · simp [store_api_key, entryNew, setPassword, hfe, hfo,
      vaultLookup_insert_other s.vault a v1 b (Ne.symm hab)]
  · simp [store_api_key, get_api_key, entryNew, setPassword, getPassword,
      hfe, hfo, vaultLookup_insert_self,
      vaultLookup_insert_other (vaultInsert s.vault a v1) b v2 a hab]
  · simp [store_api_key, get_api_key, entryNew, setPassword, getPassword,
      hfe, hfo, vaultLookup_insert_self]

/-- Witness for C9 at the keys and values of the spec's example. -/
theorem independent_keys_witness :
    ("a" : String) ≠ "b" ∧ noFault.entryNewFail = none ∧
      noFault.storeOpFail = none
    ∧ (get_api_key noFault
        (store_api_key noFault
          (store_api_key noFault (initState []) "a" "1").2 "b" "2").2 "a").1 =
        Except.ok "1"
    ∧ (get_api_key noFault
        (store_api_key noFault
          (store_api_key noFault (initState []) "a" "1").2 "b" "2").2 "b").1 =
        Except.ok "2" :=
  ⟨by decide, rfl, rfl,
    (independent_keys noFault (initState []) "a" "b" "1" "2"
        (by decide) rfl rfl).2.1,
    (independent_keys noFault (initState []) "a" "b" "1" "2"
        (by decide) rfl rfl).2.2⟩

/-- C10: get is a pure read — for every key, every fault environment and
every state, get_api_key returns the state it was given: neither the vault
contents nor the keep-alive slot or handle count change, whether the call
succeeds or fails. -/
theorem get_pure_read (f : Fault) (s : AppState) (k : String) :
    (get_api_key f s k).2 = s := by
  unfold get_api_key
  cases he : entryNew f.entryNewFail SERVICE_NAME k with
  | error e => simp
  | ok entry => cases hg : getPassword f.storeOpFail s.vault entry <;> simp [hg]

end MoneyMachine
